import Mathlib

/-!
Verification of the `proxysiphon.proxychimp` parser (file
`proxysiphon/proxychimp.py`): a shallow embedding of the `Guts` class and
its extraction primitives, together with theorems about the portion
splitter, the section indexer, the section accessor, the field extractor,
the table extractors and the record assembler.

Python strings are modelled as Lean `String` (a wrapper around
`List Char`); Python lists as Lean `List`; `None` as `Option.none`;
raised exceptions as `Except` errors.  Machine-level concerns (encodings,
bytes) are abstracted where noted.
-/

namespace Proxychimp

/-! ## Python string primitives -/

/-- Characters stripped by Python `str.strip()` (whitespace). -/
def pyIsSpace (c : Char) : Bool :=
  c = ' ' || c = '\t' || c = '\n' || c = '\r' || c = Char.ofNat 11 || c = Char.ofNat 12

/-- Model of Python `str.lstrip()` on the character list. -/
def lstripList (l : List Char) : List Char := l.dropWhile pyIsSpace

/-- Model of Python `str.rstrip()` on the character list. -/
def rstripList (l : List Char) : List Char := (l.reverse.dropWhile pyIsSpace).reverse

/-- Python `s.lstrip().rstrip()` (= `s.strip()`). -/
def pyStrip (s : String) : String := ⟨lstripList (rstripList s.data)⟩

/-- Python `s.rstrip()`. -/
def pyRstrip (s : String) : String := ⟨rstripList s.data⟩

/-- Is `needle` a contiguous sublist of the second argument? -/
def isSubList (needle : List Char) : List Char → Bool
  | [] => needle.isEmpty
  | c :: rest => needle.isPrefixOf (c :: rest) || isSubList needle rest

/-- Python `needle in hay` (substring containment). -/
def pyContains (hay needle : String) : Bool := isSubList needle.data hay.data

/-- The part of `l` after the first occurrence of `sep`:
Python `l.split(sep, maxsplit=1)[1:][0]`, defined when `sep` occurs in `l`. -/
def afterFirstSep (sep : List Char) : List Char → Option (List Char)
  | [] => if sep.isEmpty then some [] else none
  | c :: rest =>
    if sep.isPrefixOf (c :: rest) then some ((c :: rest).drop sep.length)
    else afterFirstSep sep rest

/-- First occurrence split: returns what is before and after the first
occurrence of `sep`, if any. -/
def findSplitAt (sep : List Char) : List Char → Option (List Char × List Char)
  | [] => none
  | c :: rest =>
    if sep.isPrefixOf (c :: rest) then some ([], (c :: rest).drop sep.length)
    else
      match findSplitAt sep rest with
      | none => none
      | some (pre, post) => some (c :: pre, post)

/-- Fuel-driven model of Python `str.split(sep)` on character lists
(non-overlapping occurrences, left to right).  Fuel `l.length + 1`
always suffices for a non-empty `sep`. -/
def pySplitListFuel (sep : List Char) : Nat → List Char → List (List Char)
  | 0, l => [l]
  | fuel + 1, l =>
    match findSplitAt sep l with
    | none => [l]
    | some (pre, post) => pre :: pySplitListFuel sep fuel post

/-- Python `s.split(sep)` for a non-empty separator. -/
def pySplitStr (s sep : String) : List String :=
  (pySplitListFuel sep.data (s.data.length + 1) s.data).map (fun l => ⟨l⟩)

/-- Model of Python `str.splitlines()` restricted to the terminators
`\n`, `\r` and `\r\n`: a terminator ends the current line, and no empty
final line is produced for a trailing terminator. -/
def pySplitlinesAux : List Char → List Char → List (List Char)
  | curr, [] => if curr.isEmpty then [] else [curr.reverse]
  | curr, '\r' :: '\n' :: rest => curr.reverse :: pySplitlinesAux [] rest
  | curr, '\r' :: rest => curr.reverse :: pySplitlinesAux [] rest
  | curr, '\n' :: rest => curr.reverse :: pySplitlinesAux [] rest
  | curr, c :: rest => pySplitlinesAux (c :: curr) rest

/-- Python `s.splitlines()`. -/
def pySplitlines (s : String) : List String :=
  (pySplitlinesAux [] s.data).map (fun l => ⟨l⟩)

/-- Value of a non-empty digit string. -/
def digitsToNat (cs : List Char) : Option Nat :=
  if cs ≠ [] && cs.all Char.isDigit then
    some (cs.foldl (fun a c => a * 10 + (c.toNat - 48)) 0)
  else none

/-- Model of Python `int()` on plain optionally-signed decimal strings
(the only shapes the repository feeds it): surrounding whitespace is
stripped first. -/
def pyIntConv (s : String) : Option Int :=
  match (pyStrip s).data with
  | '-' :: ds => (digitsToNat ds).map (fun n => -(n : Int))
  | '+' :: ds => (digitsToNat ds).map (fun n => (n : Int))
  | ds => (digitsToNat ds).map (fun n => (n : Int))

/-- Model of Python `float()` on plain optionally-signed decimal literals
(`123`, `-869`, `1.5`, `44.3` …): the result is the exact decimal
`mantissa / 10 ^ exponent` represented as the pair
`(mantissa, exponent)` (see `decimalToRat`).  Exponent notation and
special values are not modelled; the repository only feeds plain
decimals. -/
def pyFloatConv (s : String) : Option (Int × Nat) :=
  let cs := (pyStrip s).data
  let signed : Int × List Char :=
    match cs with
    | '-' :: rest => (-1, rest)
    | '+' :: rest => (1, rest)
    | _ => (1, cs)
  let ip := signed.2.takeWhile (fun c => c ≠ '.')
  let rest := signed.2.dropWhile (fun c => c ≠ '.')
  match rest with
  | [] => (digitsToNat ip).map (fun n => (signed.1 * n, 0))
  | _ :: frac =>
    if (ip.all Char.isDigit && frac.all Char.isDigit) && (ip ≠ [] || frac ≠ []) then
      let ipv : Nat := ip.foldl (fun a c => a * 10 + (c.toNat - 48)) 0
      let fv : Nat := frac.foldl (fun a c => a * 10 + (c.toNat - 48)) 0
      some (signed.1 * ((ipv * 10 ^ frac.length + fv : Nat) : Int), frac.length)
    else none

/-- The rational value of a decimal pair produced by `pyFloatConv`. -/
def decimalToRat (p : Int × Nat) : ℚ := (p.1 : ℚ) / (10 : ℚ) ^ p.2

/-! ## Module constants (proxychimp.py lines 10–18) -/

def DIVIDER : String := "#------------------------"

def DATALINE_TRIGGER : String := "# Data lines follow (have no #)"

def HEADINGS : List String :=
  ["Contribution_Date", "Title", "Investigators",
   "NOTE: Please cite original publication, online resource and date accessed when using this data.",
   "Description and Notes", "Publication", "Funding_Agency",
   "Site Information", "Data_Collection", "Species",
   "Chronology_Information", "Variables", "Data"]

def CHRON_HEADER : String :=
  "# Labcode\tdepth_top\tdepth_bottom\tmat_dated\t14C_date\t14C_1s_err\tdelta_R\tdelta_R_1s_err\tother_date\tother_1s_err\tother_type\t"

def MISSINGVALUE_LABEL : String := "# Missing Value: "

/-- `self._section_headings = ['# ' + s for s in HEADINGS]`. -/
def sectionHeadings : List String := HEADINGS.map (fun s => "# " ++ s)

/-! ## Portion splitter (`Guts._divide_portions`) -/

/-- Does the line begin with the comment marker (`ln[0] == '#'`)? -/
def startsHash (ln : String) : Bool := ln.data.head? == some '#'

/-- `DATALINE_TRIGGER in ln`. -/
def containsTrigger (ln : String) : Bool := pyContains ln DATALINE_TRIGGER

/-- The mutable state of `_divide_portions` (plus the fields of `self`
it writes). -/
structure DivideState where
  description : List String
  data : List String
  data_beginline : Option Nat
  prev_description : Bool
  dataline_flag : Bool
deriving Repr, DecidableEq

/-- Successor state of the description branch of `_divide_portions`:
append the line to `description` and raise the flag when the line
contains the trigger sentinel. -/
def descBranch (s : DivideState) (ln : String) : DivideState :=
  { s with description := s.description ++ [ln],
           dataline_flag := s.dataline_flag || containsTrigger ln }

/-- Successor state of the `elif dataline_flag` branch: append to `data`,
record `data_beginline` on the first data line, clear
`prev_description`. -/
def dataBranch (n : Nat) (s : DivideState) (ln : String) : DivideState :=
  { s with data := s.data ++ [ln],
           data_beginline := if s.prev_description then some n else s.data_beginline,
           prev_description := false }

/-- One iteration of the `for n, ln in enumerate(lines)` loop of
`_divide_portions`.  Evaluating `ln[0]` on an empty line raises
`IndexError`, modelled as `Except.error ()`. -/
def divideStep (n : Nat) (s : DivideState) (ln : String) : Except Unit DivideState :=
  match ln.data with
  | [] => .error ()
  | c :: _ =>
    if c = '#' ∨ s.dataline_flag = false then .ok (descBranch s ln)
    else .ok (dataBranch n s ln)

/-- The loop of `_divide_portions`. -/
def divideAux (n : Nat) (s : DivideState) : List String → Except Unit DivideState
  | [] => .ok s
  | ln :: rest =>
    match divideStep n s ln with
    | .error e => .error e
    | .ok s2 => divideAux (n + 1) s2 rest

/-- State at entry of `_divide_portions`: `prev_description = True`,
`dataline_flag = False`, empty portions, `data_beginline = None`. -/
def initDivideState : DivideState :=
  { description := [], data := [], data_beginline := none,
    prev_description := true, dataline_flag := false }

/-- `Guts._divide_portions(lines)`. -/
def dividePortions (lines : List String) : Except Unit DivideState :=
  divideAux 0 initDivideState lines

/-! ## Section indexer (`Guts._write_sectionindex`) -/

/-- Occurrence list per section name: half-open ranges `(start, stop)`
into `description`; `stop = none` models Python `None` (slice to the
end). -/
abbrev SectionIndex := List (String × List (Nat × Option Nat))

/-- `any([h == ln.rstrip() for h in self._section_headings])`. -/
def isHeadingLine (ln : String) : Bool :=
  sectionHeadings.any (fun h => h = pyRstrip ln)

/-- `ln[1:].rstrip().lstrip()`. -/
def headingKey (ln : String) : String := pyStrip ⟨ln.data.drop 1⟩

/-- The mutable state of the `_write_sectionindex` scan. -/
structure IndexState where
  all_keys : List String
  all_start : List Nat
  all_stop : List Nat
  prev_divider : Bool
deriving Repr, DecidableEq

/-- One iteration of the `for idx, ln in enumerate(self.description)`
loop.  Note the two separate `if` statements of the source: the heading
test reads `prev_divider` first, and the divider test may then set it. -/
def indexStep (idx : Nat) (s : IndexState) (ln : String) : IndexState :=
  let s1 :=
    if s.prev_divider && isHeadingLine ln then
      { all_keys := s.all_keys ++ [headingKey ln]
        all_start := s.all_start ++ [idx]
        all_stop := if s.all_start.length > 0 then s.all_stop ++ [idx - 1] else s.all_stop
        prev_divider := false }
    else s
  if pyContains ln DIVIDER then { s1 with prev_divider := true } else s1

/-- The scan loop of `_write_sectionindex`. -/
def indexAux (idx : Nat) (s : IndexState) : List String → IndexState
  | [] => s
  | ln :: rest => indexAux (idx + 1) (indexStep idx s ln) rest

/-- Python `zip` over three lists (truncating to the shortest). -/
def zip3 {α β γ : Type} : List α → List β → List γ → List (α × β × γ)
  | a :: as, b :: bs, c :: cs => (a, b, c) :: zip3 as bs cs
  | _, _, _ => []

/-- One `section_map[k].append((start, stop))` on the insertion-ordered
association list modelling the `defaultdict(list)`. -/
def addOccurrence : SectionIndex → String → (Nat × Option Nat) → SectionIndex
  | [], k, v => [(k, [v])]
  | (k0, vs) :: rest, k, v =>
    if k0 = k then (k0, vs ++ [v]) :: rest else (k0, vs) :: addOccurrence rest k v

/-- Grouping of `(key, start, stop)` triples by key, preserving document
order within each key, as the `defaultdict` loop does. -/
def groupOccurrences (ps : List (String × Nat × Option Nat)) : SectionIndex :=
  ps.foldl (fun acc p => addOccurrence acc p.1 p.2) []

/-- `Guts._write_sectionindex`: scan `description`, close the last open
occurrence with `data_beginline` (which may be `None`), and group. -/
def writeSectionIndex (description : List String) (data_beginline : Option Nat) : SectionIndex :=
  let s := indexAux 0 { all_keys := [], all_start := [], all_stop := [], prev_divider := false } description
  groupOccurrences (zip3 s.all_keys s.all_start (s.all_stop.map some ++ [data_beginline]))

/-- Dictionary lookup in the section index (`self.sectionindex[section]`,
with `default_factory = None` so a missing key raises `KeyError`). -/
def lookupSec : SectionIndex → String → Option (List (Nat × Option Nat))
  | [], _ => none
  | (k, vs) :: rest, name => if k = name then some vs else lookupSec rest name

/-- Python `l[start:stop]` for non-negative bounds, `stop = none` meaning
`None`. -/
def pySlice (l : List String) (start : Nat) (stop : Option Nat) : List String :=
  match stop with
  | none => l.drop start
  | some st => (l.take st).drop start

/-! ## The `Guts` object and its errors -/

/-- The fields of a constructed `Guts` instance that the extraction
methods read. -/
structure Guts where
  path : Option String
  encodingguess : Option String
  filestr : String
  description : List String
  data : List String
  data_beginline : Option Nat
  sectionindex : SectionIndex
deriving Repr

/-- The exceptions the extraction methods can raise. -/
inductive GutsError
  /-- `KeyError('section key "…" not found')` from `pull_section`. -/
  | sectionNotFound (sect : String)
  /-- `IndexError` from `sections[0]` on an empty list (unreachable for
  indexes built by `_write_sectionindex`). -/
  | emptySections
  /-- `ValueError` from `list.index` when `CHRON_HEADER` is absent. -/
  | malformedTable
  /-- `AssertionError` when a singular section occurs more than once. -/
  | ambiguousSection (sect : String)
  /-- `ValueError` from `int()`/`float()` on an unconvertible string. -/
  | conversionFailed (v : String)
  /-- `ValueError`/`TypeError` from tuple unpacking with the wrong arity
  (`yank_variables`, `VariableInfo(*v)`). -/
  | arityMismatch
deriving Repr, DecidableEq

/-- `Guts.pull_section`. -/
def pull_section (g : Guts) (sect : String) : Except GutsError (List (List String)) :=
  match lookupSec g.sectionindex sect with
  | none => .error (.sectionNotFound sect)
  | some occs => .ok (occs.map (fun p => pySlice g.description p.1 p.2))

/-- `Guts.available_sections`. -/
def available_sections (g : Guts) : List String := g.sectionindex.map (fun p => p.1)

/-! ## Field extractor (`find_values`) -/

/-- The `for l in x` loop of `find_values`: a line matches when it
contains both `k` and `sep`; the value is everything after the first
`sep`, stripped; a non-empty value overwrites the candidate. -/
def findValuesAux (k sep : String) : Option String → List String → Option String
  | out, [] => out
  | out, l :: rest =>
    let out2 :=
      if pyContains l k && pyContains l sep then
        match afterFirstSep sep.data l.data with
        | none => out
        | some tl =>
          let val := pyStrip ⟨tl⟩
          if val = "" then out else some val
      else out
    findValuesAux k sep out2 rest

/-- `find_values(x, k, sep)` without the optional `fun` conversion. -/
def find_values (x : List String) (k sep : String) : Option String :=
  findValuesAux k sep none x

/-- `find_values(x, k, sep, fun=int)`: the final candidate is converted
with Python `int()`, whose failure raises `ValueError`. -/
def find_values_int (x : List String) (k sep : String) : Except GutsError (Option Int) :=
  match find_values x k sep with
  | none => .ok none
  | some v =>
    match pyIntConv v with
    | none => .error (.conversionFailed v)
    | some n => .ok (some n)

/-- `find_values(x, k, sep, fun=float)` with Python `float()`. -/
def find_values_float (x : List String) (k sep : String) : Except GutsError (Option (Int × Nat)) :=
  match find_values x k sep with
  | none => .ok none
  | some v =>
    match pyFloatConv v with
    | none => .error (.conversionFailed v)
    | some q => .ok (some q)

/-! ## Table extraction (`guess_missingvalues`, `yank_data_df`,
`yank_chron_df`) -/

/-- The `for ln in section` loop of `guess_missingvalues`: on each line
containing the missing-value label, `out = ln.split(MISSINGVALUE_LABEL)[1]`
(last such line wins).  The guard guarantees the split has a second
element; the fallback branch is unreachable. -/
def guessLoop : Option String → List String → Option String
  | out, [] => out
  | out, ln :: rest =>
    let out2 :=
      if pyContains ln MISSINGVALUE_LABEL then
        match (pySplitStr ln MISSINGVALUE_LABEL).drop 1 with
        | v :: _ => some v
        | [] => out
      else out
    guessLoop out2 rest

/-- `Guts.guess_missingvalues`. -/
def guess_missingvalues (g : Guts) : Except GutsError (Option String) :=
  match pull_section g "Data" with
  | .error e => .error e
  | .ok [] => .error .emptySections
  | .ok (sec :: _) => .ok (guessLoop none sec)

/-- Default NA tokens of `pandas.read_table` when `na_values` adds to the
default set (`keep_default_na=True`); from the pandas documentation of
the era the repository pins (`pd.np` usage).  pandas is an external
dependency; only its documented cell-level NA behaviour is modelled. -/
def pandasDefaultNA : List String :=
  ["", "#N/A", "#N/A N/A", "#NA", "-1.#IND", "-1.#QNAN", "-NaN", "-nan",
   "1.#IND", "1.#QNAN", "N/A", "NA", "NULL", "NaN", "n/a", "nan", "null"]

/-- The NA-token set `pandas.read_table` uses for a given `na_values`
argument: `None` keeps just the defaults; a scalar string is added to
the defaults. -/
def naTokens (missingvalues : Option String) : List String :=
  match missingvalues with
  | none => pandasDefaultNA
  | some v => pandasDefaultNA ++ [v]

/-- A single table cell after pandas NA substitution: a cell exactly
matching an NA token becomes "no value" (`none`), otherwise the literal
text is kept (typing of numeric cells is not modelled). -/
def pandasCell (na : List String) (cell : String) : Option String :=
  if cell ∈ na then none else some cell

/-- Tab split of one table row. -/
def tabSplit (s : String) : List String := pySplitStr s "\t"

/-- Cell-level model of `pandas.read_table` on joined lines: the first
non-blank line is the header row, blank lines are skipped
(`skip_blank_lines`), remaining lines are tab-separated rows with NA
substitution. -/
def pandasTable (na : List String) (lines : List String) : List (List (Option String)) :=
  ((lines.filter (fun l => l ≠ "")).drop 1).map (fun r => (tabSplit r).map (pandasCell na))

/-- `Guts.yank_data_df`, at cell granularity. -/
def yank_data_df (g : Guts) : Except GutsError (List (List (Option String))) :=
  match guess_missingvalues g with
  | .error e => .error e
  | .ok mv => .ok (pandasTable (naTokens mv) (g.data.map pyRstrip))

/-- Python `list.index(target)` (first exact match; `ValueError` when
absent is reported by the caller). -/
def listIndexOf (target : String) : List String → Option Nat
  | [] => none
  | x :: rest =>
    if x = target then some 0
    else (listIndexOf target rest).map (fun i => i + 1)

/-- `Guts.yank_chron_df` with its default `missingvalues=[-999, 'NaN']`:
locate the line equal to `CHRON_HEADER` (`section.index`, `ValueError`
when absent), strip the leading two characters and trailing whitespace
from each following line, and parse as a table. -/
def yank_chron_df (g : Guts) : Except GutsError (List (List (Option String))) :=
  match pull_section g "Chronology_Information" with
  | .error e => .error e
  | .ok [] => .error .emptySections
  | .ok (sec :: _) =>
    match listIndexOf CHRON_HEADER sec with
    | none => .error .malformedTable
    | some start_idx =>
      .ok (pandasTable ["-999", "NaN"] ((sec.drop start_idx).map (fun x => pyRstrip ⟨x.data.drop 2⟩)))

/-- `Guts.has_chron`: only `KeyError` (section not found) is caught and
downgraded to `False`; every other failure propagates. -/
def has_chron (g : Guts) : Except GutsError Bool :=
  match yank_chron_df g with
  | .error (.sectionNotFound _) => .ok false
  | .error e => .error e
  | .ok chron => .ok (decide (chron.length > 0))

/-! ## Scalar-metadata extraction (the `yank_*` methods) -/

/-- A publication field value: Python `str` or `int`. -/
inductive PubVal
  | s (v : String)
  | i (n : Int)
deriving Repr, DecidableEq

/-- The per-publication dictionary, in `target_keys` order, given the
already-converted `published_date_or_year`. -/
def pubDict (sec : List String) (pdoy : Option PubVal) : List (String × Option PubVal) :=
  [("authors", (find_values sec "# Authors:" ":").map PubVal.s),
   ("published_date_or_year", pdoy),
   ("published_title", (find_values sec "# Published_Title:" ":").map PubVal.s),
   ("journal_name", (find_values sec "# Journal_Name:" ":").map PubVal.s),
   ("volume", (find_values sec "# Volume:" ":").map PubVal.s),
   ("edition", (find_values sec "# Edition:" ":").map PubVal.s),
   ("issue", (find_values sec "# Issue:" ":").map PubVal.s),
   ("pages", (find_values sec "# Pages:" ":").map PubVal.s),
   ("report_number", (find_values sec "# Report Number:" ":").map PubVal.s),
   ("doi", (find_values sec "# DOI:" ":").map PubVal.s),
   ("online_resource", (find_values sec "# Online_Resource:" ":").map PubVal.s),
   ("full_citation", (find_values sec "# Full_Citation:" ":").map PubVal.s),
   ("abstract", (find_values sec "# Abstract:" ":").map PubVal.s)]

/-- One `this_pub` dictionary of `yank_publication`; the `int` conversion
of `published_date_or_year` can raise. -/
def mkPublication (sec : List String) : Except GutsError (List (String × Option PubVal)) :=
  match find_values sec "# Published_Date_or_Year:" ":" with
  | none => .ok (pubDict sec none)
  | some v =>
    match pyIntConv v with
    | none => .error (.conversionFailed v)
    | some n => .ok (pubDict sec (some (PubVal.i n)))

/-- `Guts.yank_publication`: note that `pull_section` is NOT wrapped in
any `try`/`except`, so its `KeyError` propagates. -/
def yank_publication (g : Guts) : Except GutsError (List (List (String × Option PubVal))) :=
  match pull_section g "Publication" with
  | .error e => .error e
  | .ok sections => sections.mapM mkPublication

/-- `records.DataCollection` field set. -/
structure DataCollection where
  collection_name : Option String
  first_year : Option (Int × Nat)
  last_year : Option (Int × Nat)
  time_unit : Option String
  core_length : Option String
  notes : Option String
  collection_year : Option Int
deriving Repr, DecidableEq

/-- `Guts.yank_data_collection`: `assert len(sections) < 2`, then field
extraction with `float`/`int` conversions in `target_keys` order. -/
def yank_data_collection (g : Guts) : Except GutsError DataCollection :=
  match pull_section g "Data_Collection" with
  | .error e => .error e
  | .ok sections =>
    if sections.length ≥ 2 then .error (.ambiguousSection "Data_Collection")
    else
      match sections with
      | [] => .error .emptySections
      | sec :: _ =>
        Except.bind (find_values_float sec "First_Year:" ":") (fun fy =>
        Except.bind (find_values_float sec "Last_Year:" ":") (fun ly =>
        Except.bind (find_values_int sec "Collection_Year:" ":") (fun cy =>
        Except.ok
          { collection_name := find_values sec "Collection_Name:" ":"
            first_year := fy
            last_year := ly
            time_unit := find_values sec "Time_Unit:" ":"
            core_length := find_values sec "Core_Length:" ":"
            notes := find_values sec "Notes:" ":"
            collection_year := cy })))

/-- `Guts.yank_description_and_notes` (the `except AttributeError` is
dead code for string lines and is not modelled). -/
def yank_description_and_notes (g : Guts) : Except GutsError (Option String) :=
  match pull_section g "Description and Notes" with
  | .error e => .error e
  | .ok sections =>
    if sections.length ≥ 2 then .error (.ambiguousSection "Description and Notes")
    else
      match sections with
      | [] => .error .emptySections
      | sec :: _ => .ok (find_values sec "Description:" ":")

/-- The long citation-notice section name used by
`yank_original_source_url`. -/
def noteSectionName : String :=
  "NOTE: Please cite original publication, online resource and date accessed when using this data."

/-- `Guts.yank_original_source_url`. -/
def yank_original_source_url (g : Guts) : Except GutsError (Option String) :=
  match pull_section g noteSectionName with
  | .error e => .error e
  | .ok sections =>
    if sections.length ≥ 2 then .error (.ambiguousSection noteSectionName)
    else
      match sections with
      | [] => .error .emptySections
      | sec :: _ => .ok (find_values sec "Original_Source_URL:" ":")

/-- `records.SiteInformation` field set. -/
structure SiteInformation where
  site_name : Option String
  location : Option String
  country : Option String
  northernmost_latitude : Option (Int × Nat)
  southernmost_latitude : Option (Int × Nat)
  easternmost_longitude : Option (Int × Nat)
  westernmost_longitude : Option (Int × Nat)
  elevation : Option (Int × Nat)
deriving Repr, DecidableEq

/-- `Guts.yank_site_information`. -/
def yank_site_information (g : Guts) : Except GutsError SiteInformation :=
  match pull_section g "Site Information" with
  | .error e => .error e
  | .ok sections =>
    if sections.length ≥ 2 then .error (.ambiguousSection "Site Information")
    else
      match sections with
      | [] => .error .emptySections
      | sec :: _ =>
        Except.bind (find_values_float sec "# Northernmost_Latitude:" ":") (fun nl =>
        Except.bind (find_values_float sec "# Southernmost_Latitude:" ":") (fun sl =>
        Except.bind (find_values_float sec "# Easternmost_Longitude:" ":") (fun el =>
        Except.bind (find_values_float sec "# Westernmost_Longitude:" ":") (fun wl =>
        Except.bind (find_values_float sec "# Elevation:" ":") (fun ele =>
        Except.ok
          { site_name := find_values sec "# Site_Name:" ":"
            location := find_values sec "# Location:" ":"
            country := find_values sec "# Country:" ":"
            northernmost_latitude := nl
            southernmost_latitude := sl
            easternmost_longitude := el
            westernmost_longitude := wl
            elevation := ele })))))

/-- Insertion-ordered dict update (`out[var_name] = …`, overwriting). -/
def dictInsert (k : String) (v : List String) : List (String × List String) → List (String × List String)
  | [] => [(k, v)]
  | (k0, v0) :: rest =>
    if k0 = k then (k0, v) :: rest else (k0, v0) :: dictInsert k v rest

/-- The `for ln in section` loop of `yank_variables`: lines not starting
`## ` are skipped; otherwise `ln[3:].split('\t')` must unpack into
exactly two values (else `ValueError`), and the components are the
comma split of the second. -/
def varsLoop (acc : List (String × List String)) : List String → Except GutsError (List (String × List String))
  | [] => .ok acc
  | ln :: rest =>
    if (⟨ln.data.take 3⟩ : String) ≠ "## " then varsLoop acc rest
    else
      match pySplitStr ⟨ln.data.drop 3⟩ "\t" with
      | [vn, comps] => varsLoop (dictInsert vn (pySplitStr comps ",") acc) rest
      | _ => .error .arityMismatch

/-- `Guts.yank_variables`. -/
def yank_variables (g : Guts) : Except GutsError (List (String × List String)) :=
  match pull_section g "Variables" with
  | .error e => .error e
  | .ok sections =>
    if sections.length ≥ 2 then .error (.ambiguousSection "Variables")
    else
      match sections with
      | [] => .error .emptySections
      | sec :: _ => varsLoop [] sec

/-! ## Record assembler (`Guts.to_ncdcrecord`) -/

/-- `records.VariableInfo`: nine positional descriptive components. -/
structure VariableInfo where
  what : String
  material : String
  error : String
  units : String
  seasonality : String
  archive : String
  detail : String
  method : String
  datatype : String
deriving Repr, DecidableEq

/-- `records.VariableInfo(*v)`: tuple unpacking needs exactly nine
components, otherwise `TypeError`. -/
def mkVariableInfo (v : List String) : Except GutsError VariableInfo :=
  match v with
  | [a, b, c, d, e, f, g, h, i] => .ok ⟨a, b, c, d, e, f, g, h, i⟩
  | _ => .error .arityMismatch

/-- `records.NcdcRecord` as populated by `to_ncdcrecord`. -/
structure NcdcRecord where
  chronology_information : List (List (Option String))
  data : List (List (Option String))
  data_collection : DataCollection
  description : Option String
  original_source_url : Option String
  publication : List (List (String × Option PubVal))
  site_information : SiteInformation
  vars : List (String × VariableInfo)
deriving Repr

/-- `Guts.to_ncdcrecord`, in the source's evaluation order; any
component failure propagates (nothing is caught). -/
def to_ncdcrecord (g : Guts) : Except GutsError NcdcRecord :=
  Except.bind (yank_chron_df g) (fun chron =>
  Except.bind (yank_data_df g) (fun d =>
  Except.bind (yank_data_collection g) (fun d_collection =>
  Except.bind (yank_description_and_notes g) (fun descr =>
  Except.bind (yank_original_source_url g) (fun orig_url =>
  Except.bind (yank_publication g) (fun pubs =>
  Except.bind (yank_site_information g) (fun site_info =>
  Except.bind (yank_variables g) (fun file_vars =>
  Except.bind (file_vars.mapM (fun p => Except.map (fun vi => (p.1, vi)) (mkVariableInfo p.2))) (fun vars =>
  Except.ok
    { chronology_information := chron
      data := d
      data_collection := d_collection
      description := descr
      original_source_url := orig_url
      publication := pubs
      site_information := site_info
      vars := vars })))))))))

/-! ## Construction (`Guts.__init__`) -/

/-- The common tail of `Guts.__init__` once `path`, `encodingguess` and
`filestr` are resolved: split into lines, divide the portions (which
raises `IndexError` on an empty line), and build the section index. -/
def mkGutsCore (path : Option String) (encguess : Option String) (filestr : String) : Except Unit Guts :=
  match dividePortions (pySplitlines filestr) with
  | .error e => .error e
  | .ok s =>
    .ok { path := path
          encodingguess := encguess
          filestr := filestr
          description := s.description
          data := s.data
          data_beginline := s.data_beginline
          sectionindex := writeSectionIndex s.description s.data_beginline }

/-- `Guts.__init__(str_or_path)`.  The filesystem is abstracted as a map
`fs` from the argument to the file's bytes; `fs arg = none` models
`open` (or the read) raising `FileNotFoundError`/`OSError`, in which
case the argument itself is the document text.  `chardet.detect` and
byte decoding are abstracted as `detect` and `decode`. -/
def gutsInit (fs : String → Option (List Nat)) (detect : List Nat → String)
    (decode : List Nat → String → String) (arg : String) : Except Unit Guts :=
  match fs arg with
  | some b => mkGutsCore (some arg) (some (detect b)) (decode b (detect b))
  | none => mkGutsCore none none arg

/-- Convenience: the `Guts` value parsed from a list of (non-empty)
lines; a dummy value on the unreachable `IndexError` branch.  Used only
to build concrete documents for witnesses and counterexamples. -/
def gutsOfLines (lines : List String) : Guts :=
  match dividePortions lines with
  | .ok s =>
    { path := none
      encodingguess := none
      filestr := String.intercalate "\n" lines
      description := s.description
      data := s.data
      data_beginline := s.data_beginline
      sectionindex := writeSectionIndex s.description s.data_beginline }
  | .error _ =>
    { path := none, encodingguess := none, filestr := ""
      description := [], data := [], data_beginline := none, sectionindex := [] }

/-! ## Scan-shape predicate for the portion splitter -/

/-- Decidable predicate on a document: no line beginning with `#` occurs
after the first data line (the first line reached with the data flag set
that does not begin with `#`).  The flag update mirrors
`_divide_portions`: it is set by any line containing the trigger
sentinel. -/
def noHashAfterData : Bool → List String → Bool
  | _, [] => true
  | flag, ln :: rest =>
    if flag && !(startsHash ln) then rest.all (fun w => !(startsHash w))
    else noHashAfterData (flag || containsTrigger ln) rest

/-! ## Concrete documents for witnesses and counterexamples -/

/-- The field-extractor example lines fixed by the spec. -/
def exLinesC4 : List String := ["apple: 1", "bee: 1:2", "charlie: 1.5", "dingo-2", "echo: "]

/-- A description where a recognized heading (`# Data`) follows a divider
and an unrecognized commentary line (`# junk`). -/
def exDescC2 : List String :=
  ["#------------------------", "# Title", "#------------------------", "# junk", "# Data"]

/-- A document with a comment line after the first data line. -/
def exDocC1 : List String := ["# Data lines follow (have no #)", "a", "# b"]

/-- A document where a line contains the trigger sentinel as a proper
substring but no line equals it. -/
def exDocC8 : List String := ["x# Data lines follow (have no #)y", "5"]

/-- A document whose `Data` section has no missing-value directive and
whose data table contains a `-999` cell. -/
def exDocC5 : List String :=
  ["#------------------------", "# Data", "# Data lines follow (have no #)",
   "depth\tage", "1\t-999"]

/-- A document with every section `to_ncdcrecord` needs except
`Publication`. -/
def exDocC6 : List String :=
  ["#------------------------",
   "# NOTE: Please cite original publication, online resource and date accessed when using this data.",
   "# Original_Source_URL: http://x",
   "#------------------------",
   "# Description and Notes",
   "# Description: d",
   "#------------------------",
   "# Data_Collection",
   "# Collection_Name: c",
   "#------------------------",
   "# Site Information",
   "# Northernmost_Latitude: 1.5",
   "#------------------------",
   "# Chronology_Information",
   CHRON_HEADER,
   "# 1\t2\t3\t4\t5\t6\t7\t8\t9\t10\t11\t",
   "#------------------------",
   "# Variables",
   "## depth\t,,,cm,,,,,",
   "#------------------------",
   "# Data",
   "# Data lines follow (have no #)",
   "depth\tage",
   "1\t2"]

/-- A document whose `Chronology_Information` section exists but contains
no line equal to `CHRON_HEADER`. -/
def exDocC7 : List String :=
  ["#------------------------", "# Chronology_Information", "# no header here"]

/-- A small document with a `Title` section only. -/
def exDocC3 : List String := ["#------------------------", "# Title", "# x"]

/-! ## General lemmas about the portion splitter -/

lemma data_ne_nil {s : String} (h : s ≠ "") : s.data ≠ [] := by
  intro hd
  apply h
  cases s with
  | mk d => exact congrArg String.mk hd

@[simp] lemma descBranch_description (s : DivideState) (ln : String) :
    (descBranch s ln).description = s.description ++ [ln] := rfl

@[simp] lemma descBranch_data (s : DivideState) (ln : String) :
    (descBranch s ln).data = s.data := rfl

@[simp] lemma descBranch_beginline (s : DivideState) (ln : String) :
    (descBranch s ln).data_beginline = s.data_beginline := rfl

@[simp] lemma descBranch_flag (s : DivideState) (ln : String) :
    (descBranch s ln).dataline_flag = (s.dataline_flag || containsTrigger ln) := rfl

@[simp] lemma dataBranch_description (n : Nat) (s : DivideState) (ln : String) :
    (dataBranch n s ln).description = s.description := rfl

@[simp] lemma dataBranch_data (n : Nat) (s : DivideState) (ln : String) :
    (dataBranch n s ln).data = s.data ++ [ln] := rfl

@[simp] lemma dataBranch_flag (n : Nat) (s : DivideState) (ln : String) :
    (dataBranch n s ln).dataline_flag = s.dataline_flag := rfl

lemma divideStep_descCase {n : Nat} {s : DivideState} {ln : String} {c : Char} {cs : List Char}
    (hld : ln.data = c :: cs) (hcond : c = '#' ∨ s.dataline_flag = false) :
    divideStep n s ln = .ok (descBranch s ln) := by
  simp only [divideStep, hld]
  rw [if_pos hcond]

lemma divideStep_dataCase {n : Nat} {s : DivideState} {ln : String} {c : Char} {cs : List Char}
    (hld : ln.data = c :: cs) (hc : ¬ c = '#') (hf : s.dataline_flag = true) :
    divideStep n s ln = .ok (dataBranch n s ln) := by
  simp only [divideStep, hld]
  rw [if_neg]
  intro hor
  rcases hor with h1 | h2
  · exact hc h1
  · rw [hf] at h2
    simp at h2

lemma startsHash_eq_false {ln : String} {c : Char} {cs : List Char}
    (hld : ln.data = c :: cs) (hsh : startsHash ln = false) : ¬ c = '#' := by
  intro hcc
  rw [startsHash, hld, hcc] at hsh
  simp at hsh

lemma divideAux_error_of_mem (rest : List String) : ∀ (n : Nat) (s : DivideState),
    "" ∈ rest → divideAux n s rest = .error () := by
  induction rest with
  | nil =>
    intro n s h
    simp at h
  | cons ln rest ih =>
    intro n s h
    rcases List.mem_cons.mp h with h1 | h2
    · rw [← h1]
      rfl
    · cases hs : divideStep n s ln with
      | error e =>
        cases e
        simp [divideAux, hs]
      | ok s2 =>
        simp only [divideAux, hs]
        exact ih (n + 1) s2 h2

lemma divideAux_dataPhase (rest : List String) : ∀ (n : Nat) (s : DivideState),
    s.dataline_flag = true →
    (∀ ln ∈ rest, ln ≠ "" ∧ startsHash ln = false) →
    ∃ s2, divideAux n s rest = .ok s2 ∧
      s2.description = s.description ∧ s2.data = s.data ++ rest := by
  induction rest with
  | nil =>
    intro n s hf h
    exact ⟨s, rfl, rfl, by simp⟩
  | cons ln rest ih =>
    intro n s hf h
    obtain ⟨hne, hsh⟩ := h ln (List.mem_cons_self ln rest)
    cases hld : ln.data with
    | nil => exact absurd hld (data_ne_nil hne)
    | cons c cs =>
      have hstep := divideStep_dataCase (n := n) hld (startsHash_eq_false hld hsh) hf
      obtain ⟨s2, hrun, hdesc, hdata⟩ := ih (n + 1) (dataBranch n s ln)
        (by simp [hf]) (fun w hw => h w (List.mem_cons_of_mem ln hw))
      refine ⟨s2, ?_, ?_, ?_⟩
      · simp only [divideAux, hstep]
        exact hrun
      · rw [hdesc]
        simp
      · rw [hdata]
        simp

lemma divideAux_reconstruct (rest : List String) : ∀ (n : Nat) (s : DivideState),
    (∀ ln ∈ rest, ln ≠ "") → s.data = [] →
    noHashAfterData s.dataline_flag rest = true →
    ∃ s2, divideAux n s rest = .ok s2 ∧
      s2.description ++ s2.data = s.description ++ rest := by
  induction rest with
  | nil =>
    intro n s hne hdata hnh
    exact ⟨s, rfl, by simp [hdata]⟩
  | cons ln rest ih =>
    intro n s hne hdata hnh
    have hlne := hne ln (List.mem_cons_self ln rest)
    cases hld : ln.data with
    | nil => exact absurd hld (data_ne_nil hlne)
    | cons c cs =>
      rw [noHashAfterData] at hnh
      by_cases hcase : s.dataline_flag = true ∧ startsHash ln = false
      · obtain ⟨hf, hsh⟩ := hcase
        rw [hf, hsh] at hnh
        simp only [Bool.true_and, Bool.not_false, if_true] at hnh
        have hstep := divideStep_dataCase (n := n) hld (startsHash_eq_false hld hsh) hf
        obtain ⟨s2, hrun, hdesc, hdata2⟩ := divideAux_dataPhase rest (n + 1)
          (dataBranch n s ln) (by simp [hf])
          (by
            intro w hw
            refine ⟨hne w (List.mem_cons_of_mem ln hw), ?_⟩
            have := List.all_eq_true.mp hnh w hw
            simpa using this)
        refine ⟨s2, ?_, ?_⟩
        · simp only [divideAux, hstep]
          exact hrun
        · rw [hdesc, hdata2]
          simp [hdata]
      · have hcond : c = '#' ∨ s.dataline_flag = false := by
          by_cases hf : s.dataline_flag = true
          · left
            have hsh : startsHash ln = true := by
              cases hx : startsHash ln
              · exact absurd ⟨hf, hx⟩ hcase
              · rfl
            rw [startsHash, hld] at hsh
            simpa using hsh
          · right
            cases hx : s.dataline_flag
            · rfl
            · exact absurd hx hf
        have hfalse : (s.dataline_flag && !(startsHash ln)) = false := by
          rcases hcond with hcc | hff
          · have : startsHash ln = true := by
              rw [startsHash, hld, hcc]
              simp
            rw [this]
            simp
          · rw [hff]
            simp
        rw [hfalse] at hnh
        simp only [Bool.false_eq_true, if_false] at hnh
        have hstep := divideStep_descCase (n := n) hld hcond
        obtain ⟨s2, hrun, happ⟩ := ih (n + 1) (descBranch s ln)
          (fun w hw => hne w (List.mem_cons_of_mem ln hw))
          (by simp [hdata]) (by simpa using hnh)
        refine ⟨s2, ?_, ?_⟩
        · simp only [divideAux, hstep]
          exact hrun
        · rw [happ]
          simp

lemma divideAux_noTrigger (rest : List String) : ∀ (n : Nat) (s : DivideState),
    (∀ ln ∈ rest, ln ≠ "") →
    (∀ ln ∈ rest, containsTrigger ln = false) →
    s.dataline_flag = false →
    ∃ s2, divideAux n s rest = .ok s2 ∧ s2.description = s.description ++ rest ∧
      s2.data = s.data ∧ s2.data_beginline = s.data_beginline ∧ s2.dataline_flag = false := by
  induction rest with
  | nil =>
    intro n s hne htr hf
    exact ⟨s, rfl, by simp, rfl, rfl, hf⟩
  | cons ln rest ih =>
    intro n s hne htr hf
    cases hld : ln.data with
    | nil => exact absurd hld (data_ne_nil (hne ln (List.mem_cons_self ln rest)))
    | cons c cs =>
      have hstep := divideStep_descCase (n := n) hld (Or.inr hf)
      have hflag : (descBranch s ln).dataline_flag = false := by
        rw [descBranch_flag, hf, htr ln (List.mem_cons_self ln rest)]
        rfl
      obtain ⟨s2, hrun, hdesc, hdata, hbl, hf2⟩ := ih (n + 1) (descBranch s ln)
        (fun w hw => hne w (List.mem_cons_of_mem ln hw))
        (fun w hw => htr w (List.mem_cons_of_mem ln hw)) hflag
      refine ⟨s2, ?_, ?_, hdata, hbl, hf2⟩
      · simp only [divideAux, hstep]
        exact hrun
      · rw [hdesc]
        simp

/-! ## Claims about the portion splitter -/

/-- C1 (amended): lines beginning with `#` are appended to `description`
even after the data portion has begun, so `description ++ data`
reconstructs the original line sequence exactly when the document has
non-empty lines and no `#`-line occurs after the first data line (the
condition `noHashAfterData`); it is not an unconditional invariant, and
a `#`-line after the trigger is not appended to `data`. -/
theorem dividePortions_append_eq_of_noHashAfterData (lines : List String)
    (h1 : ∀ ln ∈ lines, ln ≠ "")
    (h2 : noHashAfterData false lines = true) :
    ∃ s, dividePortions lines = .ok s ∧ s.description ++ s.data = lines := by
  obtain ⟨s2, hrun, happ⟩ := divideAux_reconstruct lines 0 initDivideState h1 rfl h2
  exact ⟨s2, hrun, by simpa [initDivideState] using happ⟩

/-- Witness for C1 on a concrete well-formed document. -/
theorem dividePortions_append_witness :
    ∃ s, dividePortions ["# Data", "# Data lines follow (have no #)", "1", "2"] = .ok s ∧
      s.description ++ s.data = ["# Data", "# Data lines follow (have no #)", "1", "2"] :=
  dividePortions_append_eq_of_noHashAfterData
    ["# Data", "# Data lines follow (have no #)", "1", "2"] (by decide) (by decide)

/-- Counterexample for C1 as stated: in `exDocC1` the line `# b` comes
after the first data line `a`, yet the splitter appends it to
`description` (not to `data`), and `description ++ data` is
`[trigger, "# b", "a"]`, which is not the original sequence. -/
theorem dividePortions_hash_after_data_counterexample :
    dividePortions exDocC1 =
      .ok { description := ["# Data lines follow (have no #)", "# b"], data := ["a"],
            data_beginline := some 1, prev_description := false, dataline_flag := true } ∧
    ["# Data lines follow (have no #)", "# b"] ++ ["a"] ≠ exDocC1 := by
  constructor
  · rfl
  · decide

/-- C8 (amended): the portion splitter enters the data state when a line
CONTAINS the trigger sentinel as a substring (`DATALINE_TRIGGER in ln`),
not only when it equals it.  For a document of non-empty lines none of
which contains the sentinel, parsing succeeds with empty `data` and
absent `data_beginline`; a document with an empty line instead raises
`IndexError` (see the empty-line claim). -/
theorem dividePortions_no_trigger_empty_data (lines : List String)
    (h1 : ∀ ln ∈ lines, ln ≠ "")
    (h2 : ∀ ln ∈ lines, containsTrigger ln = false) :
    ∃ s, dividePortions lines = .ok s ∧ s.data = [] ∧ s.data_beginline = none := by
  obtain ⟨s2, hrun, _, hdata, hbl, _⟩ := divideAux_noTrigger lines 0 initDivideState h1 h2 rfl
  exact ⟨s2, hrun, by simpa [initDivideState] using hdata, by simpa [initDivideState] using hbl⟩

/-- Witness for C8 on a concrete sentinel-free document. -/
theorem dividePortions_no_trigger_witness :
    ∃ s, dividePortions ["# Title", "# notes"] = .ok s ∧ s.data = [] ∧ s.data_beginline = none :=
  dividePortions_no_trigger_empty_data ["# Title", "# notes"] (by decide) (by decide)

/-- Counterexample for C8 as stated: no line of `exDocC8` equals the
trigger sentinel, yet its first line contains it as a proper substring,
so the splitter transitions to the data state: `data` is `["5"]` (not
empty) and `data_beginline` is `some 1` (not absent). -/
theorem dividePortions_trigger_substring_counterexample :
    (∀ ln ∈ exDocC8, ln ≠ DATALINE_TRIGGER) ∧
    dividePortions exDocC8 =
      .ok { description := ["x# Data lines follow (have no #)y"], data := ["5"],
            data_beginline := some 1, prev_description := false, dataline_flag := true } := by
  constructor
  · decide
  · rfl

/-- C9: any document containing an empty line makes `_divide_portions`
(and hence `Guts.__init__`) raise an uncaught `IndexError`, because
`ln[0]` is evaluated before the data-flag test with no guard. -/
theorem dividePortions_empty_line_errors (lines : List String)
    (h : "" ∈ lines) :
    dividePortions lines = .error () :=
  divideAux_error_of_mem lines 0 initDivideState h

/-- Witness for C9 at a concrete document with an empty line. -/
theorem dividePortions_empty_line_witness :
    dividePortions ["# Title", "", "# more"] = .error () :=
  dividePortions_empty_line_errors ["# Title", "", "# more"] (by decide)

/-! ## Claims about the section indexer -/

/-- C2 (amended): the scan of `_write_sectionindex` never resets
`prev_divider` on a non-heading, non-divider line — the flag is sticky:
such a line leaves the scan state completely unchanged, and a
recognized heading encountered later (with only commentary in between)
still opens a new section occurrence. -/
theorem indexStep_pending_divider_sticky (i j : Nat) (s : IndexState) (ln hln : String)
    (hp : s.prev_divider = true)
    (hh : isHeadingLine ln = false) (hd : pyContains ln DIVIDER = false)
    (hh2 : isHeadingLine hln = true) (hd2 : pyContains hln DIVIDER = false) :
    indexStep i s ln = s ∧
    (indexStep j (indexStep i s ln) hln).all_keys = s.all_keys ++ [headingKey hln] := by
  have h1 : indexStep i s ln = s := by
    simp [indexStep, hh, hd]
  refine ⟨h1, ?_⟩
  rw [h1]
  simp [indexStep, hp, hh2, hd2]

/-- Witness for C2 at a concrete sticky-flag state. -/
theorem indexStep_pending_divider_sticky_witness :
    indexStep 3 ⟨["Title"], [1], [], true⟩ "# junk" = ⟨["Title"], [1], [], true⟩ ∧
    (indexStep 4 (indexStep 3 ⟨["Title"], [1], [], true⟩ "# junk") "# Data").all_keys =
      ["Title"] ++ [headingKey "# Data"] :=
  indexStep_pending_divider_sticky 3 4 ⟨["Title"], [1], [], true⟩ "# junk" "# Data"
    rfl (by decide) (by decide) (by decide) (by decide)

/-- Counterexample for C2 as stated: in `exDescC2` the heading `# Data`
at index 4 is preceded by the commentary `# junk`, not by a divider, yet
the indexer opens a `Data` occurrence at 4 (and closes `Title` at 3);
under the claimed reset semantics no `Data` occurrence would exist. -/
theorem writeSectionIndex_sticky_counterexample :
    writeSectionIndex exDescC2 none = [("Title", [(1, some 3)]), ("Data", [(4, none)])] := by
  rfl

/-! ## Claims about the section accessor -/

lemma addOccurrence_vals_ne_nil (acc : SectionIndex) (k : String) (v : Nat × Option Nat) :
    (∀ p ∈ acc, p.2 ≠ []) → ∀ p ∈ addOccurrence acc k v, p.2 ≠ [] := by
  induction acc with
  | nil =>
    intro _ p hp
    simp only [addOccurrence, List.mem_singleton] at hp
    rw [hp]
    simp
  | cons q rest ih =>
    obtain ⟨k0, vs⟩ := q
    intro hacc p hp
    rw [addOccurrence] at hp
    by_cases hk : k0 = k
    · rw [if_pos hk] at hp
      rcases List.mem_cons.mp hp with h1 | h2
      · rw [h1]
        simp
      · exact hacc p (List.mem_cons_of_mem _ h2)
    · rw [if_neg hk] at hp
      rcases List.mem_cons.mp hp with h1 | h2
      · rw [h1]
        exact hacc (k0, vs) (List.mem_cons_self _ _)
      · exact ih (fun q hq => hacc q (List.mem_cons_of_mem _ hq)) p h2

lemma groupOccurrences_vals_ne_nil (ps : List (String × Nat × Option Nat)) :
    ∀ p ∈ groupOccurrences ps, p.2 ≠ [] := by
  have hgen : ∀ (qs : List (String × Nat × Option Nat)) (acc : SectionIndex),
      (∀ p ∈ acc, p.2 ≠ []) →
      ∀ p ∈ qs.foldl (fun a q => addOccurrence a q.1 q.2) acc, p.2 ≠ [] := by
    intro qs
    induction qs with
    | nil => intro acc hacc p hp; exact hacc p hp
    | cons q rest ih =>
      intro acc hacc p hp
      rw [List.foldl_cons] at hp
      exact ih (addOccurrence acc q.1 q.2) (addOccurrence_vals_ne_nil acc q.1 q.2 hacc) p hp
  intro p hp
  exact hgen ps [] (by simp) p hp

lemma writeSectionIndex_vals_ne_nil (descr : List String) (dbl : Option Nat) :
    ∀ p ∈ writeSectionIndex descr dbl, p.2 ≠ [] := by
  intro p hp
  rw [writeSectionIndex] at hp
  exact groupOccurrences_vals_ne_nil _ p hp

lemma lookupSec_mem (idx : SectionIndex) (name : String) (occs : List (Nat × Option Nat)) :
    lookupSec idx name = some occs → (name, occs) ∈ idx := by
  induction idx with
  | nil => intro h; simp [lookupSec] at h
  | cons q rest ih =>
    obtain ⟨k, vs⟩ := q
    intro h
    rw [lookupSec] at h
    by_cases hk : k = name
    · rw [if_pos hk] at h
      have hv : vs = occs := by
        injection h
      rw [← hk, ← hv]
      exact List.mem_cons_self _ _
    · rw [if_neg hk] at h
      exact List.mem_cons_of_mem _ (ih h)

/-- C3: for an index built by `_write_sectionindex`, `pull_section`
raises `SectionNotFoundError` (a `KeyError`) on any name with zero
occurrences and never returns an empty list: on a present name the
occurrence list is non-empty and the result is one slice
`description[start:stop]` per occurrence. -/
theorem pull_section_spec (g : Guts) (name : String)
    (hw : g.sectionindex = writeSectionIndex g.description g.data_beginline) :
    (lookupSec g.sectionindex name = none →
      pull_section g name = .error (.sectionNotFound name)) ∧
    (∀ occs, lookupSec g.sectionindex name = some occs →
      occs ≠ [] ∧
      pull_section g name = .ok (occs.map (fun p => pySlice g.description p.1 p.2)) ∧
      occs.map (fun p => pySlice g.description p.1 p.2) ≠ []) := by
  constructor
  · intro h
    simp [pull_section, h]
  · intro occs h
    have hne : occs ≠ [] := by
      have hmem := lookupSec_mem g.sectionindex name occs h
      rw [hw] at hmem
      exact writeSectionIndex_vals_ne_nil _ _ _ hmem
    refine ⟨hne, by simp [pull_section, h], ?_⟩
    simpa using hne

/-- Witness for C3: an absent name errors, a present name yields its
slices. -/
theorem pull_section_spec_witness :
    pull_section (gutsOfLines exDocC3) "Publication" = .error (GutsError.sectionNotFound "Publication") ∧
    pull_section (gutsOfLines exDocC3) "Title" = .ok [["# Title", "# x"]] := by
  constructor
  · exact (pull_section_spec (gutsOfLines exDocC3) "Publication" rfl).1 rfl
  · exact ((pull_section_spec (gutsOfLines exDocC3) "Title" rfl).2 [(1, none)] rfl).2.1

/-! ## Claim about the field extractor -/

/-- C4: the fixed `find_values` examples — split at the first separator,
last non-empty match wins, `None` when nothing matches or the match
strips to empty, optional `int`/`float` conversion. -/
theorem find_values_examples :
    find_values exLinesC4 "apple" ":" = some "1" ∧
    find_values exLinesC4 "bee" ":" = some "1:2" ∧
    find_values_float exLinesC4 "charlie" ":" = .ok (some (15, 1)) ∧
    decimalToRat (15, 1) = (3 / 2 : ℚ) ∧
    find_values_int exLinesC4 "bee" "-" = .ok none ∧
    find_values_int exLinesC4 "dingo" "-" = .ok (some 2) ∧
    find_values exLinesC4 "echo" ":" = none := by
  refine ⟨rfl, rfl, rfl, by norm_num [decimalToRat], rfl, rfl, rfl⟩

/-! ## Claims about the table extractors -/

lemma guessLoop_const (sec : List String) : ∀ (out : Option String),
    (∀ ln ∈ sec, pyContains ln MISSINGVALUE_LABEL = false) →
    guessLoop out sec = out := by
  induction sec with
  | nil => intro out _; rfl
  | cons ln rest ih =>
    intro out h
    rw [guessLoop, h ln (List.mem_cons_self ln rest)]
    exact ih out (fun w hw => h w (List.mem_cons_of_mem ln hw))

/-- C5 (amended): when the `Data` section carries no missing-value
directive, `guess_missingvalues` returns `None` and `yank_data_df`
falls back to the pandas default NA set, which contains `NaN` but not
`-999`: a `NaN` cell becomes "no value" while a `-999` cell keeps its
literal value. -/
theorem yank_data_df_default_na (g : Guts) (sec : List String) (more : List (List String))
    (hpull : pull_section g "Data" = .ok (sec :: more))
    (hnolabel : ∀ ln ∈ sec, pyContains ln MISSINGVALUE_LABEL = false) :
    guess_missingvalues g = .ok none ∧
    yank_data_df g = .ok (pandasTable pandasDefaultNA (g.data.map pyRstrip)) ∧
    pandasCell pandasDefaultNA "NaN" = none ∧
    pandasCell pandasDefaultNA "-999" = some "-999" := by
  have hguess : guess_missingvalues g = .ok none := by
    simp only [guess_missingvalues, hpull]
    rw [guessLoop_const sec none hnolabel]
  refine ⟨hguess, ?_, by decide, by decide⟩
  simp only [yank_data_df, hguess, naTokens]

/-- Witness for C5 at a concrete directive-free document. -/
theorem yank_data_df_default_na_witness :
    guess_missingvalues (gutsOfLines exDocC5) = .ok none ∧
    yank_data_df (gutsOfLines exDocC5) =
      .ok (pandasTable pandasDefaultNA ((gutsOfLines exDocC5).data.map pyRstrip)) ∧
    pandasCell pandasDefaultNA "NaN" = none ∧
    pandasCell pandasDefaultNA "-999" = some "-999" :=
  yank_data_df_default_na (gutsOfLines exDocC5)
    ["# Data", "# Data lines follow (have no #)"] [] rfl (by decide)

/-- Counterexample for C5 as stated: `exDocC5` has no missing-value
directive and a `-999` data cell; the claim predicts the cell becomes
"no value", but the extracted table keeps the literal `-999`. -/
theorem yank_data_df_minus999_literal_counterexample :
    guess_missingvalues (gutsOfLines exDocC5) = .ok none ∧
    yank_data_df (gutsOfLines exDocC5) = .ok [[some "1", some "-999"]] :=
  ⟨rfl, rfl⟩

lemma listIndexOf_eq_none (target : String) : ∀ (l : List String),
    (∀ x ∈ l, x ≠ target) → listIndexOf target l = none := by
  intro l
  induction l with
  | nil => intro _; rfl
  | cons x rest ih =>
    intro h
    rw [listIndexOf, if_neg (h x (List.mem_cons_self x rest))]
    rw [ih (fun w hw => h w (List.mem_cons_of_mem x hw))]
    rfl

/-- C7: a `Chronology_Information` section that exists but contains no
line equal to the fixed tab-separated header literal makes
`yank_chron_df` raise `MalformedTableError` (the `ValueError` of
`list.index`), and the error propagates through `has_chron` (which only
downgrades `KeyError`). -/
theorem yank_chron_df_missing_header_errors (g : Guts) (sec : List String)
    (more : List (List String))
    (hpull : pull_section g "Chronology_Information" = .ok (sec :: more))
    (hnone : ∀ ln ∈ sec, ln ≠ CHRON_HEADER) :
    yank_chron_df g = .error .malformedTable ∧ has_chron g = .error .malformedTable := by
  have h1 : yank_chron_df g = .error .malformedTable := by
    simp only [yank_chron_df, hpull, listIndexOf_eq_none CHRON_HEADER sec hnone]
  refine ⟨h1, ?_⟩
  simp only [has_chron, h1]

/-- Witness for C7 at a concrete header-less chronology section. -/
theorem yank_chron_df_missing_header_witness :
    yank_chron_df (gutsOfLines exDocC7) = .error GutsError.malformedTable ∧
    has_chron (gutsOfLines exDocC7) = .error GutsError.malformedTable :=
  yank_chron_df_missing_header_errors (gutsOfLines exDocC7)
    ["# Chronology_Information", "# no header here"] [] rfl (by decide)

/-! ## Claims about the record assembler -/

lemma except_bind_ok {ε α β : Type} {x : Except ε α} {f : α → Except ε β} {r : β}
    (h : Except.bind x f = .ok r) : ∃ a, x = .ok a ∧ f a = .ok r := by
  cases x with
  | error e => simp [Except.bind] at h
  | ok a => exact ⟨a, rfl, h⟩

/-- C6 (amended): `yank_publication` does NOT catch the section
accessor's `KeyError`: on a document with no `Publication` section it
raises `SectionNotFoundError` instead of returning an empty list, and
`to_ncdcrecord` therefore never succeeds on such a document. -/
theorem yank_publication_absent_errors (g : Guts)
    (h : lookupSec g.sectionindex "Publication" = none) :
    yank_publication g = .error (.sectionNotFound "Publication") ∧
    ∀ r, to_ncdcrecord g ≠ .ok r := by
  have h1 : yank_publication g = .error (.sectionNotFound "Publication") := by
    simp only [yank_publication, pull_section, h]
  refine ⟨h1, ?_⟩
  intro r hr
  unfold to_ncdcrecord at hr
  obtain ⟨chron, hc, hr⟩ := except_bind_ok hr
  obtain ⟨d, hd, hr⟩ := except_bind_ok hr
  obtain ⟨dc, hdc, hr⟩ := except_bind_ok hr
  obtain ⟨de, hde, hr⟩ := except_bind_ok hr
  obtain ⟨ou, hou, hr⟩ := except_bind_ok hr
  obtain ⟨pubs, hp, hr⟩ := except_bind_ok hr
  rw [h1] at hp
  exact Except.noConfusion hp

/-- Witness for C6 at a concrete document lacking `Publication`. -/
theorem yank_publication_absent_witness :
    yank_publication (gutsOfLines exDocC6) = .error (GutsError.sectionNotFound "Publication") :=
  (yank_publication_absent_errors (gutsOfLines exDocC6) rfl).1

/-- Counterexample for C6 as stated: `exDocC6` has every section the
assembler needs except `Publication`; the claim predicts assembly
succeeds with an empty publication list, but `to_ncdcrecord` fails with
`SectionNotFoundError` for `Publication`. -/
theorem to_ncdcrecord_missing_publication_counterexample :
    to_ncdcrecord (gutsOfLines exDocC6) = .error (GutsError.sectionNotFound "Publication") := by
  rfl

/-! ## Claim about construction -/

lemma mkGutsCore_fields (p e : Option String) (f : String) (g : Guts)
    (h : mkGutsCore p e f = .ok g) :
    g.path = p ∧ g.encodingguess = e ∧ g.filestr = f := by
  unfold mkGutsCore at h
  cases hdp : dividePortions (pySplitlines f) with
  | error er =>
    rw [hdp] at h
    exact Except.noConfusion h
  | ok s =>
    rw [hdp] at h
    injection h with h2
    rw [← h2]
    exact ⟨rfl, rfl, rfl⟩

/-- C10: the constructor accepts a path or the document text itself.
With the filesystem modelled as `fs` (where `fs arg = none` means
opening/reading `arg` raises `FileNotFoundError`/`OSError`), an
unreadable argument is parsed directly as the document content with
`path` and `encodingguess` left `None`, while a readable path decodes
the file's bytes with the detected encoding before parsing. -/
theorem gutsInit_path_or_content (fs : String → Option (List Nat))
    (detect : List Nat → String) (decode : List Nat → String → String) (arg : String) :
    (fs arg = none →
      gutsInit fs detect decode arg = mkGutsCore none none arg ∧
      ∀ g, gutsInit fs detect decode arg = .ok g →
        g.path = none ∧ g.encodingguess = none ∧ g.filestr = arg) ∧
    (∀ b, fs arg = some b →
      gutsInit fs detect decode arg = mkGutsCore (some arg) (some (detect b)) (decode b (detect b)) ∧
      ∀ g, gutsInit fs detect decode arg = .ok g →
        g.path = some arg ∧ g.encodingguess = some (detect b) ∧
        g.filestr = decode b (detect b)) := by
  constructor
  · intro h
    have he : gutsInit fs detect decode arg = mkGutsCore none none arg := by
      simp only [gutsInit, h]
    exact ⟨he, fun g hg => mkGutsCore_fields _ _ _ g (he.symm.trans hg)⟩
  · intro b h
    have he : gutsInit fs detect decode arg =
        mkGutsCore (some arg) (some (detect b)) (decode b (detect b)) := by
      simp only [gutsInit, h]
    exact ⟨he, fun g hg => mkGutsCore_fields _ _ _ g (he.symm.trans hg)⟩

/-- Witness for C10 with a concrete absent file and a concrete present
file. -/
theorem gutsInit_path_or_content_witness :
    gutsInit (fun _ => none) (fun _ => "ascii") (fun _ _ => "# d") "# T" =
      mkGutsCore none none "# T" ∧
    gutsInit (fun _ => some [35]) (fun _ => "ascii") (fun _ _ => "# d") "p" =
      mkGutsCore (some "p") (some "ascii") "# d" := by
  constructor
  · exact ((gutsInit_path_or_content (fun _ => none) (fun _ => "ascii") (fun _ _ => "# d") "# T").1 rfl).1
  · exact ((gutsInit_path_or_content (fun _ => some [35]) (fun _ => "ascii") (fun _ _ => "# d") "p").2 [35] rfl).1

end Proxychimp
